import Mathlib

/-!
Shallow embedding of the MySQL-Manager repository (package `mysqlm`) and
verification of its specification claims.

The Python source is embedded function by function:

* `mysqlm/system.py` — secret masking (`_mask`), the `run_command` logging /
  error surface and the `CommandError` message format;
* `mysqlm/models.py` — `InstanceConfig`, `to_dict`, `from_dict`;
* `mysqlm/registry.py` — `InstanceRegistry.save` as a sequence of
  filesystem operations, with a crash semantics for the write;
* `mysqlm/instance_manager.py` — path planning, port selection and checking,
  the credential bootstrap, `create_instance` and `remove_instance`,
  modelled as pure functions over an environment describing the outcomes of
  the external commands, returning the performed effects;
* `mysqlm/parameters.py` — parameter validation and `set_parameter` over a
  structured model of the ini-style configuration file.

Python strings are represented as `List Char` where character-level
behaviour matters (masking, token splitting) and as `String` elsewhere.
-/

namespace Mysqlm

/-! ### Python string primitives -/

/-- Python `str.split()` with no argument, on character lists: split on runs
of whitespace and drop empty tokens.  Accumulator holds the current token
reversed. -/
def pySplitAux : List Char → List Char → List (List Char)
  | [], cur => if cur = [] then [] else [cur.reverse]
  | c :: rest, cur =>
    if c.isWhitespace then
      if cur = [] then pySplitAux rest []
      else cur.reverse :: pySplitAux rest []
    else pySplitAux rest (c :: cur)

/-- Python `str.split()` (whitespace splitting, empty tokens dropped). -/
def pySplit (l : List Char) : List (List Char) := pySplitAux l []

/-- Python `str.strip()`: remove leading and trailing whitespace. -/
def pyStrip (l : List Char) : List Char :=
  ((l.dropWhile Char.isWhitespace).reverse.dropWhile Char.isWhitespace).reverse

/-- `s` occurs as a contiguous substring of `l`. -/
def Occurs (s l : List Char) : Prop := ∃ u v, l = u ++ (s ++ v)

/-- `s` occurs at the very start of `l` (Python: `l.startswith(s)`). -/
def OccursAt0 (s l : List Char) : Prop := ∃ v, l = s ++ v

/-! ### `mysqlm/system.py`: secret masking and the `run_command` surface

`_mask` replaces every non-empty secret of the mask list by `"******"`
(Python `str.replace`, leftmost non-overlapping occurrences).  The
replacement is embedded with explicit fuel so that it is structural
recursion; `replaceAll` instantiates the fuel with the text length, which
is always sufficient. -/

/-- One step of Python `str.replace(pat, rep)`: scan left to right, replace
each non-overlapping occurrence of `pat`.  `fuel` bounds the recursion and
is chosen `≥ txt.length` by `replaceAll`.  (The `pat = []` case never
arises from `_mask`, which skips falsy secrets.) -/
def replaceFuel (pat rep : List Char) : Nat → List Char → List Char
  | 0, txt => txt
  | _ + 1, [] => []
  | fuel + 1, c :: rest =>
    if pat ≠ [] ∧ pat.isPrefixOf (c :: rest) then
      rep ++ replaceFuel pat rep fuel (rest.drop (pat.length - 1))
    else
      c :: replaceFuel pat rep fuel rest

/-- Python `txt.replace(pat, rep)` for non-empty `pat`. -/
def replaceAll (pat rep txt : List Char) : List Char :=
  replaceFuel pat rep txt.length txt

/-- The replacement text `"******"` used by `_mask`. -/
def maskRep : List Char := ['*', '*', '*', '*', '*', '*']

/-- `mysqlm/system.py::_mask`: replace each non-empty secret of the mask
list by `"******"`, in list order.  (`if not mask_secrets: return text` and
the per-secret `if secret:` guard are both captured by skipping empty
secrets; an absent mask list is the empty list.) -/
def maskText (secrets : List (List Char)) (text : List Char) : List Char :=
  secrets.foldl (fun acc s => if s = [] then acc else replaceAll s maskRep acc) text

/-- `' '.join(cmd)`. -/
def joinSpaces (cmd : List (List Char)) : List Char :=
  (cmd.intersperse [' ']).flatten

/-- The message of `mysqlm/system.py::CommandError` (its `__str__`):
`Command '<joined argv>' failed with exit code <rc>. Stdout: <stdout.strip()>
Stderr: <stderr.strip()>`.  Note that none of the pieces are masked. -/
def commandErrorMsg (cmd : List (List Char)) (rc : Int) (out err : List Char) :
    List Char :=
  "Command \x27".toList ++ joinSpaces cmd ++
    "\x27 failed with exit code ".toList ++ (toString rc).toList ++
    ". Stdout: ".toList ++ pyStrip out ++ " Stderr: ".toList ++ pyStrip err

/-- What `run_command` surfaces to logs and to the raised error, for a
command invocation that produced exit code `rc` with captured output
`out`/`err`:
* `displayLogged` — the `Executing command:` debug line content
  (`_mask(' '.join(cmd), mask_secrets)`);
* `raisedMsg` — the `CommandError` message when `check` and `rc ≠ 0`
  (built from the unmasked command and output), otherwise `none`;
* `finishOutLogged`/`finishErrLogged` — the `Command finished` debug line
  fields (`_mask(result.stdout.strip(), mask_secrets)`, logged only when no
  error is raised; the empty string stands for a falsy captured stream). -/
structure RunSurface where
  displayLogged : List Char
  raisedMsg : Option (List Char)
  finishOutLogged : List Char
  finishErrLogged : List Char
deriving DecidableEq

/-- The logging / error surface of `mysqlm/system.py::run_command` (capture
enabled, no stream redirection). -/
def runCommandSurface (cmd : List (List Char)) (rc : Int) (out err : List Char)
    (maskSecrets : List (List Char)) (check : Bool) : RunSurface :=
  if check ∧ rc ≠ 0 then
    { displayLogged := maskText maskSecrets (joinSpaces cmd)
      raisedMsg := some (commandErrorMsg cmd rc out err)
      finishOutLogged := []
      finishErrLogged := [] }
  else
    { displayLogged := maskText maskSecrets (joinSpaces cmd)
      raisedMsg := none
      finishOutLogged := if out = [] then [] else maskText maskSecrets (pyStrip out)
      finishErrLogged := if err = [] then [] else maskText maskSecrets (pyStrip err) }


/-! ### `mysqlm/models.py`: `InstanceConfig`, `to_dict`, `from_dict`

Serialized dictionary values are one of string / int / bool / None, mirroring
what `to_dict` produces and what YAML deserialization feeds `from_dict`. -/

inductive Val where
  | str (s : String)
  | int (n : Nat)
  | bool (b : Bool)
  | none
deriving DecidableEq

/-- Python `str(v)`. -/
def pyStr : Val → String
  | .str s => s
  | .int n => toString n
  | .bool true => "True"
  | .bool false => "False"
  | .none => "None"

/-- Python `int(v)`; fails (TypeError / ValueError) outside ints, bools and
decimal strings.  Ports are naturals here. -/
def pyInt : Val → Except String Nat
  | .int n => .ok n
  | .bool b => .ok (cond b 1 0)
  | .str s => match s.toNat? with
    | some n => .ok n
    | Option.none => .error "invalid literal for int()"
  | .none => .error "int() argument must not be None"

/-- Python `bool(v)` (truthiness). -/
def pyTruthy : Val → Bool
  | .str s => s ≠ ""
  | .int n => n ≠ 0
  | .bool b => b
  | .none => false

/-- First-match association lookup: Python `dict[k]` over the serialized
key/value list (keys are unique in `to_dict` output). -/
def pyGet : List (String × Val) → String → Option Val
  | [], _ => Option.none
  | (k', v) :: rest, k => if k' = k then some v else pyGet rest k

/-- Python `dict.get(k, default)`. -/
def pyGetD (d : List (String × Val)) (k : String) (dflt : Val) : Val :=
  (pyGet d k).getD dflt

/-- Python `dict[k]` (KeyError when absent). -/
def pyIndex (d : List (String × Val)) (k : String) : Except String Val :=
  match pyGet d k with
  | some v => .ok v
  | Option.none => .error ("KeyError: " ++ k)

/-- `mysqlm/models.py::InstanceConfig` (field names as in the source). -/
structure InstanceConfig where
  name : String
  port : Nat
  socket : String
  datadir : String
  config_path : String
  log_dir : String
  error_log : String
  slow_log : String
  pid_file : String
  runtime_dir : String
  backup_dir : String
  mysql_version : Option String
  created_at : String
  last_modified : String
  systemd_unit : String
  root_password_path : String
  root_password_set : Bool := false
deriving DecidableEq

/-- `InstanceConfig.to_dict`: insertion-ordered key/value list. -/
def InstanceConfig.to_dict (i : InstanceConfig) : List (String × Val) :=
  [("name", .str i.name),
   ("port", .int i.port),
   ("socket", .str i.socket),
   ("datadir", .str i.datadir),
   ("config_path", .str i.config_path),
   ("log_dir", .str i.log_dir),
   ("error_log", .str i.error_log),
   ("slow_log", .str i.slow_log),
   ("pid_file", .str i.pid_file),
   ("runtime_dir", .str i.runtime_dir),
   ("backup_dir", .str i.backup_dir),
   ("mysql_version", match i.mysql_version with
     | some v => .str v
     | Option.none => .none),
   ("created_at", .str i.created_at),
   ("last_modified", .str i.last_modified),
   ("systemd_unit", .str i.systemd_unit),
   ("root_password_path", .str i.root_password_path),
   ("root_password_set", .bool i.root_password_set)]

/-- The `mysql_version` field is stored without conversion
(`data.get("mysql_version")`); a non-string, non-None value cannot inhabit
the record's optional-string field and falls outside the typed model. -/
def pyOptStr : Val → Except String (Option String)
  | .str s => .ok (some s)
  | .none => .ok Option.none
  | _ => .error "mysql_version: not a string"

/-- `InstanceConfig.from_dict`.  `now` stands for `datetime.utcnow().isoformat()`
used as the default for the timestamp fields; `"/var/backups/mysql"` is
`constants.DEFAULT_BACKUP_ROOT`. -/
def InstanceConfig.from_dict (now : String) (data : List (String × Val)) :
    Except String InstanceConfig := do
  let nameV ← pyIndex data "name"
  let portV ← pyIndex data "port"
  let port ← pyInt portV
  let socketV ← pyIndex data "socket"
  let datadirV ← pyIndex data "datadir"
  let configPathV ← pyIndex data "config_path"
  let logDirV ← pyIndex data "log_dir"
  let errorLogV ← pyIndex data "error_log"
  let slowLogV ← pyIndex data "slow_log"
  let pidFileV ← pyIndex data "pid_file"
  let runtimeDirV ← pyIndex data "runtime_dir"
  let mysqlVersion ← pyOptStr (pyGetD data "mysql_version" .none)
  let systemdUnitV ← pyIndex data "systemd_unit"
  pure
    { name := pyStr nameV
      port := port
      socket := pyStr socketV
      datadir := pyStr datadirV
      config_path := pyStr configPathV
      log_dir := pyStr logDirV
      error_log := pyStr errorLogV
      slow_log := pyStr slowLogV
      pid_file := pyStr pidFileV
      runtime_dir := pyStr runtimeDirV
      backup_dir := pyStr (pyGetD data "backup_dir" (.str "/var/backups/mysql"))
      mysql_version := mysqlVersion
      created_at := pyStr (pyGetD data "created_at" (.str now))
      last_modified := pyStr (pyGetD data "last_modified" (.str now))
      systemd_unit := pyStr systemdUnitV
      root_password_path := pyStr (pyGetD data "root_password_path" (.str ""))
      root_password_set := pyTruthy (pyGetD data "root_password_set" (.bool false)) }


/-! ### `mysqlm/registry.py`: `InstanceRegistry.save` and a crash semantics

`save` is embedded as the sequence of filesystem operations it performs:
a direct `Path.write_text` to the final record path followed by a `chmod`
to `0o640`.  A crash semantics enumerates every state a crash can leave
behind: before any operation, between operations, and — for a write —
mid-write with any prefix of the content on disk (`write_text` opens the
file truncating, then writes). -/

inductive FsOp where
  | writeFile (path : String) (content : String)
  | chmodFile (path : String) (mode : Nat)
  | renameFile (src dst : String)
deriving DecidableEq

def FsOp.isRename : FsOp → Bool
  | .renameFile _ _ => true
  | _ => false

/-- Flat model of `yaml.safe_dump(data, sort_keys=False)` for the record
dictionary: one `key: value` line per entry, insertion order preserved. -/
def yamlVal : Val → String
  | .str s => s
  | .int n => toString n
  | .bool true => "true"
  | .bool false => "false"
  | .none => "null"

def yamlDump (d : List (String × Val)) : String :=
  (d.map fun kv => kv.1 ++ ": " ++ yamlVal kv.2 ++ "\n").foldr (fun a b => a ++ b) ""

/-- `InstanceRegistry._path`: `directory / f"{name}.yaml"`. -/
def recordPath (dir name : String) : String := dir ++ "/" ++ name ++ ".yaml"

/-- `mysqlm/registry.py::InstanceRegistry.save`: set `last_modified`
(`now` = `datetime.utcnow().isoformat()`), then `path.write_text(yaml)` and
`os.chmod(path, 0o640)`.  Returns the mutated record and the performed
filesystem operations, in order. -/
def registrySave (dir : String) (inst : InstanceConfig) (now : String) :
    InstanceConfig × List FsOp :=
  let inst' := { inst with last_modified := now }
  (inst',
   [FsOp.writeFile (recordPath dir inst.name) (yamlDump inst'.to_dict),
    FsOp.chmodFile (recordPath dir inst.name) 0o640])

abbrev FileSys := List (String × String)

def fsGet : FileSys → String → Option String
  | [], _ => none
  | (p', c) :: rest, p => if p' = p then some c else fsGet rest p

def fsSet : FileSys → String → String → FileSys
  | [], p, c => [(p, c)]
  | (p', c') :: rest, p, c => if p' = p then (p, c) :: rest else (p', c') :: fsSet rest p c

def fsRemove : FileSys → String → FileSys
  | [], _ => []
  | (p', c') :: rest, p => if p' = p then rest else (p', c') :: fsRemove rest p

def fsApply (fs : FileSys) : FsOp → FileSys
  | .writeFile p c => fsSet fs p c
  | .chmodFile _ _ => fs
  | .renameFile src dst =>
    match fsGet fs src with
    | some c => fsSet (fsRemove fs src) dst c
    | none => fs

/-- All prefixes of a string (partial write results), shortest first. -/
def stringPrefixes (s : String) : List String :=
  s.toList.inits.map (fun l => l.asString)

/-- Every filesystem state reachable if the process crashes at any point
while executing the operation list: before an operation, in the middle of a
(non-atomic) file write with any prefix written, or after it. -/
def crashStates (fs : FileSys) : List FsOp → List FileSys
  | [] => [fs]
  | op :: rest =>
    (match op with
     | .writeFile p c => fs :: (stringPrefixes c).map (fun pre => fsSet fs p pre)
     | _ => [fs]) ++ crashStates (fsApply fs op) rest

/-- Atomicity of a save: whatever point the crash hits, the record file is
either untouched or holds the complete serialized record. -/
def SaveAtomic (fs₀ : FileSys) (ops : List FsOp) (path full : String) : Prop :=
  ∀ fs' ∈ crashStates fs₀ ops, fsGet fs' path = fsGet fs₀ path ∨ fsGet fs' path = some full

/-! ### `mysqlm/parameters.py`: validation and `set_parameter` -/

def NUMERIC_PARAMS : List String :=
  ["max_connections", "innodb_buffer_pool_instances", "innodb_io_capacity",
   "thread_cache_size"]

def SIZE_PARAMS : List String :=
  ["innodb_buffer_pool_size", "innodb_log_file_size", "tmp_table_size",
   "innodb_log_buffer_size"]

def BOOLEAN_PARAMS : List String :=
  ["slow_query_log", "skip_name_resolve", "log_bin"]

/-- Python `str.isdigit()` (ASCII model): non-empty and all digits. -/
def pyIsDigit (s : String) : Bool :=
  !s.toList.isEmpty && s.toList.all Char.isDigit

/-- `SIZE_PATTERN = ^\d+[KMGTP]?$` with `re.IGNORECASE`. -/
def sizePatternMatches (s : String) : Bool :=
  let ds := s.toList.takeWhile Char.isDigit
  let rest := s.toList.dropWhile Char.isDigit
  !ds.isEmpty &&
    (match rest with
     | [] => true
     | [c] => "KMGTPkmgtp".toList.contains c
     | _ => false)

/-- `mysqlm/parameters.py::validate_parameter`: the three known-set checks,
in source order; raises `ValueError` (the `InvalidParameterValue` kind). -/
def validateParameter (name value : String) : Except String Unit :=
  if name ∈ NUMERIC_PARAMS ∧ pyIsDigit value = false then
    .error ("Parameter " ++ name ++ " expects a numeric value")
  else if name ∈ SIZE_PARAMS ∧ pyIsDigit value = false ∧
      sizePatternMatches value = false then
    .error ("Parameter " ++ name ++ " expects size format such as 512M or 4G")
  else if name ∈ BOOLEAN_PARAMS ∧
      value.toLower ∉ ["on", "off", "true", "false", "1", "0"] then
    .error ("Parameter " ++ name ++ " expects a boolean value (ON/OFF)")
  else
    .ok ()

/-- Ini config model: ordered sections of ordered key/value pairs (the
`configparser` content with `optionxform = str`, i.e. case preserved). -/
abbrev SectionKVs := List (String × String)
abbrev IniConfig := List (String × SectionKVs)

def lookupKV : SectionKVs → String → Option String
  | [], _ => none
  | (k', v) :: rest, k => if k' = k then some v else lookupKV rest k

def setKV : SectionKVs → String → String → SectionKVs
  | [], k, v => [(k, v)]
  | (k', v') :: rest, k, v =>
    if k' = k then (k, v) :: rest else (k', v') :: setKV rest k v

def getSectionD : IniConfig → String → SectionKVs
  | [], _ => []
  | (s, kvs) :: rest, sec => if s = sec then kvs else getSectionD rest sec

def hasSectionB (cfg : IniConfig) (sec : String) : Bool :=
  cfg.any (fun e => e.1 = sec)

def setSection : IniConfig → String → String → String → IniConfig
  | [], sec, k, v => [(sec, [(k, v)])]
  | (s, kvs) :: rest, sec, k, v =>
    if s = sec then (s, setKV kvs k v) :: rest
    else (s, kvs) :: setSection rest sec k v

/-- `_read_config`'s `if "mysqld" not in parser: parser["mysqld"] = {}`. -/
def ensureMysqld (cfg : IniConfig) : IniConfig :=
  if hasSectionB cfg "mysqld" then cfg else cfg ++ [("mysqld", [])]

def configGet (cfg : IniConfig) (sec k : String) : Option String :=
  lookupKV (getSectionD cfg sec) k

/-- A `%(...)s` interpolation reference at the head of the character list
(the regex `_KEYCRE = %\(([^)]+)\)s` of `configparser.BasicInterpolation`,
anchored at the current position): returns the remainder after the match,
`none` when the head is not such a reference.  `[^)]+` requires a non-empty
body and stops at the first `)`, which must be followed by `s`. -/
def keycreMatch : List Char → Option (List Char)
  | '%' :: '(' :: rest =>
    match rest.takeWhile (fun c => c ≠ ')'), rest.dropWhile (fun c => c ≠ ')') with
    | [], _ => none
    | _ :: _, ')' :: 's' :: tail => some tail
    | _, _ => none
  | _ => none

/-- `_KEYCRE.sub('', tmp)`: delete every (left-to-right, non-overlapping)
`%(...)s` reference.  `fuel` bounds the recursion; `keycreSub` instantiates
it with the list length, which is sufficient because each step consumes at
least one character. -/
def keycreSubFuel : Nat → List Char → List Char
  | 0, l => l
  | _ + 1, [] => []
  | fuel + 1, c :: rest =>
    match keycreMatch (c :: rest) with
    | some tail => keycreSubFuel fuel tail
    | none => c :: keycreSubFuel fuel rest

def keycreSub (l : List Char) : List Char := keycreSubFuel l.length l

/-- `configparser.BasicInterpolation.before_set`, which the source's
`parser["mysqld"][parameter] = value` assignment runs on the value (the
source builds a plain `configparser.ConfigParser()`, whose default
interpolation this is): strip escaped `%%` pairs (Python
`value.replace('%%', '')`), delete every `%(...)s` reference, and accept the
value only if no `%` remains; otherwise `ValueError` (invalid interpolation
syntax) is raised. -/
def interpolationSyntaxOk (value : String) : Bool :=
  !(keycreSub (replaceAll ['%', '%'] [] value.toList)).contains '%'

/-- `mysqlm/parameters.py::set_parameter`: read config (ensuring a `[mysqld]`
section), validate, set `parser["mysqld"][parameter] = value` — which runs
`BasicInterpolation.before_set` on the value and raises `ValueError` on
invalid interpolation syntax — then rewrite the file.  The returned config
is the rewritten content; on an error nothing is written. -/
def setParameter (cfg : IniConfig) (param value : String) :
    Except String IniConfig := do
  let cfg' := ensureMysqld cfg
  let _ ← validateParameter param value
  if interpolationSyntaxOk value then
    pure (setSection cfg' "mysqld" param value)
  else
    .error ("invalid interpolation syntax in " ++ value)


/-! ### `mysqlm/instance_manager.py`

The lifecycle operations run external commands and touch the filesystem; they
are embedded as pure functions over a `CreateEnv` describing the outcomes of
those external steps, and they return the list of performed side effects in
order, together with the updated registry content. -/

/-- The ten per-instance paths of `InstanceManager._generate_paths`, built
from the `constants.py` roots and templates.  `logDir` and `runtimeDir` are
`Path(template.format(name)).parent`; since the templates end in a fixed
`/<file>` component, the parent is the prefix holding the name verbatim
(for names with a trailing slash Python would additionally collapse the
duplicate separator). -/
structure PathSet where
  datadir : String
  confDir : String
  configPath : String
  logDir : String
  runtimeDir : String
  socketPath : String
  errorLog : String
  slowLog : String
  pidFile : String
  backupDir : String
deriving DecidableEq

/-- `InstanceManager._generate_paths(name)`.  Note: no validation of `name`
is performed; the name is interpolated verbatim into every path. -/
def generatePaths (name : String) : PathSet :=
  { datadir := "/var/lib/mysql-instances/" ++ name
    confDir := "/etc/mysql-instances/" ++ name
    configPath := "/etc/mysql-instances/" ++ name ++ "/my.cnf"
    logDir := "/var/log/mysql-" ++ name
    runtimeDir := "/var/run/mysql-" ++ name
    socketPath := "/var/run/mysql-" ++ name ++ "/mysqld.sock"
    errorLog := "/var/log/mysql-" ++ name ++ "/mysqld.log"
    slowLog := "/var/log/mysql-" ++ name ++ "/mysql-slow.log"
    pidFile := "/var/run/mysql-" ++ name ++ "/mysqld.pid"
    backupDir := "/var/backups/mysql/" ++ name }

/-- `InstanceManager._render_config` (the f-string, `.strip()`ped). -/
def renderConfig (port : Nat) (p : PathSet) : String :=
  "[mysqld]\nuser=mysql\ndatadir=" ++ p.datadir ++ "\nsocket=" ++ p.socketPath ++
  "\nlog-error=" ++ p.errorLog ++ "\nslow_query_log=ON\nslow_query_log_file=" ++
  p.slowLog ++ "\npid-file=" ++ p.pidFile ++ "\nport=" ++ toString port ++
  "\n\n# Default tuning (adjust via mysqlm set-parameter)\n" ++
  "innodb_buffer_pool_size=1G\nmax_connections=200\n" ++
  "sql_mode=STRICT_TRANS_TABLES,ERROR_FOR_DIVISION_BY_ZERO,NO_ENGINE_SUBSTITUTION" ++
  "\n\n[client]\nport=" ++ toString port ++ "\nsocket=" ++ p.socketPath

/-- Registry content as a list of records (one file per record, keyed by
name; names are unique). -/
def registryExists (reg : List InstanceConfig) (name : String) : Bool :=
  reg.any (fun i => i.name = name)

def findRecord : List InstanceConfig → String → Option InstanceConfig
  | [], _ => none
  | i :: rest, name => if i.name = name then some i else findRecord rest name

/-- `registry.save`: overwrite the record file of that name (or create it). -/
def regSave : List InstanceConfig → InstanceConfig → List InstanceConfig
  | [], inst => [inst]
  | i :: rest, inst => if i.name = inst.name then inst :: rest else i :: regSave rest inst

/-- `registry.delete`: remove the record file if present (idempotent). -/
def regDelete : List InstanceConfig → String → List InstanceConfig
  | [], _ => []
  | i :: rest, name => if i.name = name then rest else i :: regDelete rest name

/-- `InstanceManager.suggest_port`: smallest candidate from 3306 upward not
claimed by an existing record.  The source's `while candidate in ports:
candidate += 1` is given `|reg| + 1` fuel, which the pigeonhole principle
makes sufficient. -/
def suggestFrom (ports : List Nat) : Nat → Nat → Nat
  | c, 0 => c
  | c, fuel + 1 => if c ∈ ports then suggestFrom ports (c + 1) fuel else c

def suggestPort (reg : List InstanceConfig) : Nat :=
  suggestFrom (reg.map (fun i => i.port)) 3306 (reg.length + 1)

/-! #### `InstanceManager._extract_temporary_password` -/

/-- The marker phrase searched for (against the lowercased line). -/
def markerChars : List Char := "temporary password".toList

/-- Python `pat in l` (substring containment). -/
def containsSub (pat : List Char) : List Char → Bool
  | [] => pat.isEmpty
  | c :: rest => pat.isPrefixOf (c :: rest) || containsSub pat rest

/-- `line.lower()` (ASCII model). -/
def lowerChars (s : String) : List Char := s.toList.map Char.toLower

/-- `"temporary password" in line.lower()`. -/
def isMarkerLine (s : String) : Bool := containsSub markerChars (lowerChars s)

/-- `line.split()[-1]`: `.error ()` models the `IndexError` Python would
raise on a whitespace-only line (marker lines never are). -/
def lastTokenE (s : String) : Except Unit String :=
  match (pySplit s.toList).getLast? with
  | some t => .ok t.asString
  | none => .error ()

/-- The `for line in reversed(lines)` scan. -/
def extractScan : List String → Except Unit (Option String)
  | [] => .ok none
  | l :: rest =>
    if isMarkerLine l then (lastTokenE l).map (fun t => some t)
    else extractScan rest

/-- `InstanceManager._extract_temporary_password`: `none` input models an
absent error-log file (warn and return `None`); otherwise the log's lines.
Scans the lines from the last to the first, returning the last
whitespace-separated token of the first marker line found; `.ok none` when
no line matches. -/
def extractTempPassword : Option (List String) → Except Unit (Option String)
  | none => .ok none
  | some lines => extractScan lines.reverse

/-! #### Effects, environment, bootstrap, create, remove -/

/-- Side effects of the lifecycle operations, in execution order.
`ensureDirs`/`setPerms` summarize `_ensure_paths`/`_set_permissions` (which
create and chmod the five per-instance directories and touch the log files). -/
inductive Eff where
  | ensureDirs (name : String)
  | setPerms (name : String)
  | writePath (path : String) (content : String)
  | chmodPath (path : String) (mode : Nat)
  | runInitialize (datadir : String)
  | startDaemon (configPath : String)
  | alterUser (socket : String)
  | shutdownCmd (socket : String)
  | saveRecord (rec : InstanceConfig)
  | deleteRecord (name : String)
  | unitStop (unit : String)
  | unitDisable (unit : String)
  | unlinkPath (path : String)
  | daemonReload
  | rmtree (path : String)
deriving DecidableEq

/-- Error kinds surfaced by `create_instance` (the taxonomy of §7 of the
spec; `invalidName` is included so that its absence from the code's
behaviour can be stated). -/
inductive CreateErr where
  | invalidName
  | alreadyExists
  | portUnavailable
  | initFailed
  | indexError
  | startFailed
  | startupTimeout
  | alterFailed
deriving DecidableEq

/-- Outcomes of the external steps of one `create_instance` run:
`listening p` — a loopback connect to port `p` succeeds;
`datadirNonempty` — `any(datadir.iterdir())`;
`initOk` — `mysqld --initialize` exits 0;
`errorLogLines` — the error log (`none` = file absent);
`newPassword` — the value of `secrets.token_urlsafe(24)`;
`startOk` — `mysqld --daemonize` exits 0;
`socketAppears` — the socket appears within the 90 s wait;
`alterOk` — the `ALTER USER` client command exits 0;
`socketDisappears` — the socket disappears within the 30 s wait;
`now` — `datetime.utcnow().isoformat()`. -/
structure CreateEnv where
  listening : Nat → Bool
  datadirNonempty : Bool
  initOk : Bool
  errorLogLines : Option (List String)
  newPassword : String
  startOk : Bool
  socketAppears : Bool
  alterOk : Bool
  socketDisappears : Bool
  now : String

/-- `InstanceManager._bootstrap_root_password`.  Returns the effects and
either the bootstrap outcome (`true` = credential applied) or the
propagated exception.  The `finally:` block always issues the
`mysqladmin shutdown` (with `check=False`, so it never raises) once the
`try:` block was entered, i.e. once the daemonized start succeeded; a
shutdown-wait timeout is caught and only logged. -/
def bootstrapModel (inst : InstanceConfig) (temp : Option String)
    (env : CreateEnv) : List Eff × Except CreateErr Bool :=
  match temp with
  | none => ([], .ok false)
  | some _ =>
    if env.startOk = false then
      ([.startDaemon inst.config_path], .error .startFailed)
    else if env.socketAppears = false then
      ([.startDaemon inst.config_path, .shutdownCmd inst.socket],
       .error .startupTimeout)
    else if env.alterOk = false then
      ([.startDaemon inst.config_path, .alterUser inst.socket,
        .shutdownCmd inst.socket], .error .alterFailed)
    else
      ([.startDaemon inst.config_path, .alterUser inst.socket,
        .shutdownCmd inst.socket], .ok true)

/-- The `InstanceConfig` literal built inside `create_instance`. -/
def buildRecord (name : String) (port : Nat) (ver : Option String)
    (now : String) (p : PathSet) (pwPath : String) : InstanceConfig :=
  { name := name
    port := port
    socket := p.socketPath
    datadir := p.datadir
    config_path := p.configPath
    log_dir := p.logDir
    error_log := p.errorLog
    slow_log := p.slowLog
    pid_file := p.pidFile
    runtime_dir := p.runtimeDir
    backup_dir := p.backupDir
    mysql_version := ver
    created_at := now
    last_modified := now
    systemd_unit := "mysqld-" ++ name ++ ".service"
    root_password_path := pwPath
    root_password_set := false }

deriving instance DecidableEq for Except

structure CreateResult where
  result : Except CreateErr InstanceConfig
  effects : List Eff
  registry : List InstanceConfig
deriving DecidableEq

/-- `InstanceManager.create_instance`, step for step:
duplicate-name check, port resolution, loopback availability check, path
planning, directory/permission setup, config write, conditional datadir
initialization, temporary-password extraction, persistent password
generation and storage, record construction, bootstrap, and — only when the
bootstrap did not raise — the registry save.  A raising step propagates
(`result = .error _`) and leaves the registry unchanged, with all effects
performed so far recorded. -/
def createInstance (reg : List InstanceConfig) (env : CreateEnv) (name : String)
    (portArg : Option Nat) (mysqlVersion : Option String) : CreateResult :=
  if registryExists reg name then
    { result := .error .alreadyExists, effects := [], registry := reg }
  else
    let port := match portArg with
      | some p => p
      | none => suggestPort reg
    if env.listening port then
      { result := .error .portUnavailable, effects := [], registry := reg }
    else
      let paths := generatePaths name
      let effs1 := [Eff.ensureDirs name, Eff.setPerms name,
                    Eff.writePath paths.configPath (renderConfig port paths),
                    Eff.chmodPath paths.configPath 0o640]
      if env.datadirNonempty = false ∧ env.initOk = false then
        { result := .error .initFailed,
          effects := effs1 ++ [Eff.runInitialize paths.datadir],
          registry := reg }
      else
        let effs2 := effs1 ++
          (if env.datadirNonempty then [] else [Eff.runInitialize paths.datadir])
        match extractTempPassword env.errorLogLines with
        | .error _ =>
          { result := .error .indexError, effects := effs2, registry := reg }
        | .ok temp =>
          let pwPath := paths.confDir ++ "/root-password.txt"
          let effs3 := effs2 ++
            [Eff.writePath pwPath (env.newPassword ++ "\n"),
             Eff.chmodPath pwPath 0o600]
          let inst := buildRecord name port mysqlVersion env.now paths pwPath
          let boot := bootstrapModel inst temp env
          match boot.2 with
          | .error e =>
            { result := .error e, effects := effs3 ++ boot.1, registry := reg }
          | .ok b =>
            let inst' := { inst with root_password_set := b }
            { result := .ok inst'
              effects := effs3 ++ boot.1 ++ [Eff.saveRecord inst']
              registry := regSave reg inst' }

/-- `Path(s).parent` for the paths occurring here: everything before the
last separator (`"."` when there is none). -/
def parentPath (s : String) : String :=
  match s.toList.reverse.dropWhile (fun c => c ≠ '/') with
  | [] => "."
  | _ :: rest => rest.reverse.asString

/-- `SystemdManager.unit_path` with the default unit directory. -/
def unitPath (unit : String) : String := "/etc/systemd/system/" ++ unit

inductive RemoveErr where
  | notFound
deriving DecidableEq

/-- Which filesystem objects exist when `remove_instance` runs. -/
structure RemoveEnv where
  unitFileExists : Bool
  dataExists : Bool
  logExists : Bool
  runtimeExists : Bool
  confExists : Bool
  backupExists : Bool
deriving DecidableEq

/-- `InstanceManager.remove_instance`: load the record (`FileNotFoundError`
if absent), stop and disable the unit, delete the unit file (and reload) if
present, delete data and log dirs unless `keep_data`, always delete the
runtime dir and the config dir (parent of `config_path`) when they exist,
delete the backup dir unless `keep_data`, and finally delete the registry
record. -/
def removeInstance (reg : List InstanceConfig) (env : RemoveEnv) (name : String)
    (keepData : Bool) : Except RemoveErr (List Eff × List InstanceConfig) :=
  match findRecord reg name with
  | none => .error .notFound
  | some inst =>
    let effs :=
      [Eff.unitStop inst.systemd_unit, Eff.unitDisable inst.systemd_unit]
      ++ (if env.unitFileExists then
            [Eff.unlinkPath (unitPath inst.systemd_unit), Eff.daemonReload]
          else [])
      ++ (if keepData then []
          else
            (if env.dataExists then [Eff.rmtree inst.datadir] else [])
            ++ (if env.logExists then [Eff.rmtree inst.log_dir] else []))
      ++ (if env.runtimeExists then [Eff.rmtree inst.runtime_dir] else [])
      ++ (if env.confExists then [Eff.rmtree (parentPath inst.config_path)] else [])
      ++ (if env.backupExists ∧ keepData = false then [Eff.rmtree inst.backup_dir]
          else [])
      ++ [Eff.deleteRecord name]
    .ok (effs, regDelete reg name)


/-! ### Auxiliary definitions used by the verification statements -/

/-- Does an effect persist a record to the registry? -/
def Eff.isSaveRecord : Eff → Bool
  | .saveRecord _ => true
  | _ => false

/-- A representative registry record, as `create_instance` would build it. -/
def sampleRecord : InstanceConfig :=
  buildRecord "db1" 3306 none "2024-01-01T00:00:00" (generatePaths "db1")
    "/etc/mysql-instances/db1/root-password.txt"

/-- An environment in which every external step succeeds and the error log
contains no temporary-password marker. -/
def quietEnv : CreateEnv :=
  { listening := fun _ => false
    datadirNonempty := false
    initOk := true
    errorLogLines := some []
    newPassword := "newpw"
    startOk := true
    socketAppears := true
    alterOk := true
    socketDisappears := true
    now := "2024-01-02T00:00:00" }

/-- A removal environment in which every filesystem object exists. -/
def allExistEnv : RemoveEnv :=
  { unitFileExists := true, dataExists := true, logExists := true,
    runtimeExists := true, confExists := true, backupExists := true }

/-- An initialization-log line of the form mysqld emits. -/
def tempLogLine : String :=
  "A temporary password is generated for root@localhost: s3cret!"

/-- `quietEnv`, but the temporary password is present in the log and the
`ALTER USER` command fails. -/
def alterFailEnv : CreateEnv :=
  { quietEnv with errorLogLines := some [tempLogLine], alterOk := false }

/-- A small record for exercising `registrySave`. -/
def tinyRecord : InstanceConfig :=
  { name := "a", port := 1, socket := "s", datadir := "d", config_path := "c",
    log_dir := "l", error_log := "e", slow_log := "w", pid_file := "p",
    runtime_dir := "r", backup_dir := "b", mysql_version := none,
    created_at := "t0", last_modified := "t0", systemd_unit := "u",
    root_password_path := "q", root_password_set := false }


/-! ### Occurrence lemmas for the masking proof -/

theorem occurs_of_occursAt0 {s l : List Char} (h : OccursAt0 s l) : Occurs s l := by
  obtain ⟨v, hv⟩ := h
  exact ⟨[], v, by simpa using hv⟩

theorem occursAt0_cons_self {s : List Char} (c : Char) (t : List Char) :
    OccursAt0 (c :: s) (c :: (s ++ t)) := ⟨t, by simp⟩

theorem occurs_cons_elim {s : List Char} {x : Char} {t : List Char}
    (h : Occurs s (x :: t)) : OccursAt0 s (x :: t) ∨ Occurs s t := by
  obtain ⟨u, v, hv⟩ := h
  cases u with
  | nil => exact Or.inl ⟨v, by simpa using hv⟩
  | cons y u' =>
    injection hv with h1 h2
    exact Or.inr ⟨u', v, h2⟩

theorem occurs_cons {s : List Char} (x : Char) {t : List Char}
    (h : Occurs s t) : Occurs s (x :: t) := by
  obtain ⟨u, v, hv⟩ := h
  exact ⟨x :: u, v, by simp [hv]⟩

theorem occurs_nil_elim {s : List Char} (h : Occurs s []) : s = [] := by
  obtain ⟨u, v, hv⟩ := h
  have := hv.symm
  simp only [List.append_eq_nil] at this
  exact this.2.1

theorem occurs_of_occurs_drop {s l : List Char} {k : Nat}
    (h : Occurs s (l.drop k)) : Occurs s l := by
  obtain ⟨u, v, hv⟩ := h
  refine ⟨l.take k ++ u, v, ?_⟩
  conv_lhs => rw [← List.take_append_drop k l]
  rw [hv, List.append_assoc]

theorem occurs_append_elim {s a b : List Char} (hs : s ≠ [])
    (h : Occurs s (a ++ b)) : (∃ c, c ∈ s ∧ c ∈ a) ∨ Occurs s b := by
  induction a with
  | nil => exact Or.inr (by simpa using h)
  | cons x a' ih =>
    rcases occurs_cons_elim (by simpa using h) with h0 | hrest
    · obtain ⟨v, hv⟩ := h0
      cases s with
      | nil => exact absurd rfl hs
      | cons c s' =>
        injection hv with h1 _
        exact Or.inl ⟨c, List.mem_cons_self c s', by simp [h1]⟩
    · rcases ih hrest with ⟨c, hc, hca⟩ | hb
      · exact Or.inl ⟨c, hc, List.mem_cons_of_mem _ hca⟩
      · exact Or.inr hb

theorem occursAt0_iff_isPrefixOf {s l : List Char} :
    OccursAt0 s l ↔ s.isPrefixOf l = true := by
  induction s generalizing l with
  | nil => simp [OccursAt0, List.isPrefixOf]
  | cons c s' ih =>
    cases l with
    | nil =>
      simp only [List.isPrefixOf]
      constructor
      · rintro ⟨v, hv⟩; simp at hv
      · intro h; simp at h
    | cons d t =>
      simp only [List.isPrefixOf, Bool.and_eq_true, beq_iff_eq]
      constructor
      · rintro ⟨v, hv⟩
        injection hv with h1 h2
        exact ⟨h1.symm, ih.mp ⟨v, h2⟩⟩
      · rintro ⟨h1, h2⟩
        obtain ⟨v, hv⟩ := ih.mpr h2
        exact ⟨v, by simp [h1, hv]⟩

/-! ### Masking removes and never re-creates star-free secrets -/

/-- If a non-empty string `s` whose characters avoid `rep` starts the output
of `replaceFuel`, it started the input text. -/
theorem occursAt0_replaceFuel {rep : List Char} (hrep : rep ≠ []) :
    ∀ (fuel : Nat) (pat txt s : List Char), s ≠ [] → (∀ c ∈ s, c ∉ rep) →
      OccursAt0 s (replaceFuel pat rep fuel txt) → OccursAt0 s txt := by
  intro fuel
  induction fuel with
  | zero => intro pat txt s _ _ h; simpa [replaceFuel] using h
  | succ fuel ih =>
    intro pat txt s hs hdisj h
    cases txt with
    | nil =>
      obtain ⟨v, hv⟩ := h
      simp only [replaceFuel] at hv
      cases s with
      | nil => exact absurd rfl hs
      | cons a s' => simp at hv
    | cons c rest =>
      rw [replaceFuel] at h
      by_cases hcond : pat ≠ [] ∧ pat.isPrefixOf (c :: rest) = true
      · rw [if_pos hcond] at h
        obtain ⟨v, hv⟩ := h
        cases s with
        | nil => exact absurd rfl hs
        | cons a s' =>
          cases rep with
          | nil => exact absurd rfl hrep
          | cons r rep' =>
            injection hv with h1 _
            exact absurd (h1 ▸ List.mem_cons_self r rep')
              (hdisj a (List.mem_cons_self a s'))
      · rw [if_neg hcond] at h
        obtain ⟨v, hv⟩ := h
        cases s with
        | nil => exact absurd rfl hs
        | cons a s' =>
          injection hv with h1 h2
          by_cases hs' : s' = []
          · subst hs'
            exact ⟨rest, by simp [h1]⟩
          · obtain ⟨w, hw⟩ :=
              ih pat rest s' hs' (fun c hc => hdisj c (List.mem_cons_of_mem _ hc))
                ⟨v, h2⟩
            exact ⟨w, by simp [h1, hw]⟩

/-- If a non-empty string `s` whose characters avoid `rep` occurs anywhere in
the output of `replaceFuel`, it occurred in the input text. -/
theorem occurs_replaceFuel {rep : List Char} (hrep : rep ≠ []) :
    ∀ (fuel : Nat) (pat txt s : List Char), s ≠ [] → (∀ c ∈ s, c ∉ rep) →
      Occurs s (replaceFuel pat rep fuel txt) → Occurs s txt := by
  intro fuel
  induction fuel with
  | zero => intro pat txt s _ _ h; simpa [replaceFuel] using h
  | succ fuel ih =>
    intro pat txt s hs hdisj h
    cases txt with
    | nil =>
      simp only [replaceFuel] at h
      exact absurd (occurs_nil_elim h) hs
    | cons c rest =>
      rw [replaceFuel] at h
      by_cases hcond : pat ≠ [] ∧ pat.isPrefixOf (c :: rest) = true
      · rw [if_pos hcond] at h
        rcases occurs_append_elim hs h with ⟨d, hd, hdrep⟩ | hR
        · exact absurd hdrep (hdisj d hd)
        · have := ih pat (rest.drop (pat.length - 1)) s hs hdisj hR
          exact occurs_cons c (occurs_of_occurs_drop this)
      · rw [if_neg hcond] at h
        rcases occurs_cons_elim h with h0 | hR
        · have hfold : OccursAt0 s (replaceFuel pat rep (fuel + 1) (c :: rest)) := by
            rw [replaceFuel, if_neg hcond]; exact h0
          exact occurs_of_occursAt0
            (occursAt0_replaceFuel hrep (fuel + 1) pat (c :: rest) s hs hdisj hfold)
        · exact occurs_cons c (ih pat rest s hs hdisj hR)

/-- After replacing `pat` (non-empty, disjoint from `rep`) the output does not
start with `pat`. -/
theorem not_occursAt0_replaceFuel {rep : List Char} (hrep : rep ≠ [])
    {pat : List Char} (hpat : pat ≠ []) (hdisj : ∀ c ∈ pat, c ∉ rep) :
    ∀ (fuel : Nat) (txt : List Char), txt.length ≤ fuel →
      ¬ OccursAt0 pat (replaceFuel pat rep fuel txt) := by
  intro fuel txt hlen h
  cases fuel with
  | zero =>
    have : txt = [] := List.length_eq_zero.mp (Nat.le_zero.mp hlen)
    subst this
    obtain ⟨v, hv⟩ := h
    simp only [replaceFuel] at hv
    cases pat with
    | nil => exact absurd rfl hpat
    | cons a p' => simp at hv
  | succ fuel =>
    cases txt with
    | nil =>
      obtain ⟨v, hv⟩ := h
      simp only [replaceFuel] at hv
      cases pat with
      | nil => exact absurd rfl hpat
      | cons a p' => simp at hv
    | cons c rest =>
      rw [replaceFuel] at h
      by_cases hcond : pat ≠ [] ∧ pat.isPrefixOf (c :: rest) = true
      · rw [if_pos hcond] at h
        obtain ⟨v, hv⟩ := h
        cases pat with
        | nil => exact absurd rfl hpat
        | cons a p' =>
          cases rep with
          | nil => exact absurd rfl hrep
          | cons r rep' =>
            injection hv with h1 _
            exact absurd (h1 ▸ List.mem_cons_self r rep')
              (hdisj a (List.mem_cons_self a p'))
      · rw [if_neg hcond] at h
        obtain ⟨v, hv⟩ := h
        cases pat with
        | nil => exact absurd rfl hpat
        | cons a p' =>
          injection hv with h1 h2
          have hpre : (a :: p').isPrefixOf (c :: rest) = true := by
            by_cases hp' : p' = []
            · subst hp'
              exact occursAt0_iff_isPrefixOf.mp ⟨rest, by simp [h1]⟩
            · obtain ⟨w, hw⟩ :=
                occursAt0_replaceFuel hrep fuel (a :: p') rest p' hp'
                  (fun c hc => hdisj c (List.mem_cons_of_mem _ hc)) ⟨v, h2⟩
              exact occursAt0_iff_isPrefixOf.mp ⟨w, by simp [h1, hw]⟩
          exact hcond ⟨hpat, hpre⟩

/-- After replacing `pat` (non-empty, disjoint from `rep`) the output does not
contain `pat` at all: Python `str.replace` removes every occurrence. -/
theorem not_occurs_replaceFuel {rep : List Char} (hrep : rep ≠ [])
    {pat : List Char} (hpat : pat ≠ []) (hdisj : ∀ c ∈ pat, c ∉ rep) :
    ∀ (fuel : Nat) (txt : List Char), txt.length ≤ fuel →
      ¬ Occurs pat (replaceFuel pat rep fuel txt) := by
  intro fuel
  induction fuel with
  | zero =>
    intro txt hlen h
    have : txt = [] := List.length_eq_zero.mp (Nat.le_zero.mp hlen)
    subst this
    simp only [replaceFuel] at h
    exact absurd (occurs_nil_elim h) hpat
  | succ fuel ih =>
    intro txt hlen h
    cases txt with
    | nil =>
      simp only [replaceFuel] at h
      exact absurd (occurs_nil_elim h) hpat
    | cons c rest =>
      rw [replaceFuel] at h
      by_cases hcond : pat ≠ [] ∧ pat.isPrefixOf (c :: rest) = true
      · rw [if_pos hcond] at h
        rcases occurs_append_elim hpat h with ⟨d, hd, hdrep⟩ | hR
        · exact absurd hdrep (hdisj d hd)
        · have hlen' : (rest.drop (pat.length - 1)).length ≤ fuel := by
            have := List.length_drop (pat.length - 1) rest
            simp only [List.length_cons] at hlen
            omega
          exact ih (rest.drop (pat.length - 1)) hlen' hR
      · rw [if_neg hcond] at h
        rcases occurs_cons_elim h with h0 | hR
        · have hfold : OccursAt0 pat (replaceFuel pat rep (fuel + 1) (c :: rest)) := by
            rw [replaceFuel, if_neg hcond]; exact h0
          exact not_occursAt0_replaceFuel hrep hpat hdisj (fuel + 1) (c :: rest) hlen hfold
        · have hlen' : rest.length ≤ fuel := by
            simp only [List.length_cons] at hlen; omega
          exact ih rest hlen' hR

theorem occurs_replaceAll {rep : List Char} (hrep : rep ≠ [])
    {pat txt s : List Char} (hs : s ≠ []) (hdisj : ∀ c ∈ s, c ∉ rep)
    (h : Occurs s (replaceAll pat rep txt)) : Occurs s txt :=
  occurs_replaceFuel hrep txt.length pat txt s hs hdisj h

theorem not_occurs_replaceAll {rep : List Char} (hrep : rep ≠ [])
    {pat : List Char} (hpat : pat ≠ []) (hdisj : ∀ c ∈ pat, c ∉ rep)
    (txt : List Char) : ¬ Occurs pat (replaceAll pat rep txt) :=
  not_occurs_replaceFuel hrep hpat hdisj txt.length txt (Nat.le_refl _)

theorem mem_maskRep_iff {c : Char} : c ∈ maskRep ↔ c = '*' := by
  simp [maskRep]

/-- Masking a text against a later secret cannot re-introduce an occurrence of
a star-free string that was absent. -/
theorem occurs_maskText {s : List Char} (hs : s ≠ []) (hstar : '*' ∉ s) :
    ∀ (secrets : List (List Char)) (txt : List Char),
      Occurs s (maskText secrets txt) → Occurs s txt := by
  intro secrets
  have hdisj : ∀ c ∈ s, c ∉ maskRep := by
    intro c hc hcr
    exact hstar (mem_maskRep_iff.mp hcr ▸ hc)
  induction secrets with
  | nil => intro txt h; simpa [maskText] using h
  | cons p rest ih =>
    intro txt h
    rw [maskText, List.foldl_cons] at h
    by_cases hp : p = []
    · rw [if_pos hp] at h
      exact ih txt h
    · rw [if_neg hp] at h
      exact occurs_replaceAll (by simp [maskRep]) hs hdisj (ih _ h)

/-- `_mask` removes every occurrence of every non-empty star-free secret of
its mask list, and later replacements never re-create one. -/
theorem not_occurs_secret_maskText {s : List Char} {secrets : List (List Char)}
    (hmem : s ∈ secrets) (hs : s ≠ []) (hstar : '*' ∉ s) :
    ∀ txt, ¬ Occurs s (maskText secrets txt) := by
  have hdisj : ∀ c ∈ s, c ∉ maskRep := by
    intro c hc hcr
    exact hstar (mem_maskRep_iff.mp hcr ▸ hc)
  induction secrets with
  | nil => exact absurd hmem (List.not_mem_nil s)
  | cons p rest ih =>
    intro txt h
    rw [maskText, List.foldl_cons] at h
    rcases List.mem_cons.mp hmem with heq | htail
    · subst heq
      rw [if_neg hs] at h
      have habsent := @not_occurs_replaceAll maskRep (by simp [maskRep]) s hs hdisj txt
      exact habsent (occurs_maskText hs hstar rest _ h)
    · exact ih htail _ h

/-! ### Support lemmas: the temporary-password extractor -/

theorem pySplitAux_ne_nil_of_cur_ne_nil :
    ∀ (l cur : List Char), cur ≠ [] → pySplitAux l cur ≠ [] := by
  intro l
  induction l with
  | nil => intro cur hc; simp [pySplitAux, hc]
  | cons d rest ih =>
    intro cur hc
    by_cases hd : d.isWhitespace
    · simp [pySplitAux, hd, hc]
    · simp only [pySplitAux, hd, if_neg, Bool.false_eq_true, if_false]
      exact ih (d :: cur) (by simp)

theorem pySplitAux_ne_nil_of_mem :
    ∀ (l : List Char) (c : Char), c ∈ l → c.isWhitespace = false →
      ∀ cur, pySplitAux l cur ≠ [] := by
  intro l
  induction l with
  | nil => intro c hc; exact absurd hc (List.not_mem_nil c)
  | cons d rest ih =>
    intro c hc hw cur
    by_cases hd : d.isWhitespace
    · have hcr : c ∈ rest := by
        rcases List.mem_cons.mp hc with h | h
        · subst h; rw [hd] at hw; exact absurd hw (by simp)
        · exact h
      by_cases hcur : cur = []
      · simpa [pySplitAux, hd, hcur] using ih c hcr hw []
      · simp [pySplitAux, hd, hcur]
    · simp only [pySplitAux, hd, Bool.false_eq_true, if_false]
      exact pySplitAux_ne_nil_of_cur_ne_nil rest (d :: cur) (by simp)

theorem mem_of_containsSub :
    ∀ (l : List Char) (c : Char) (pat : List Char),
      containsSub (c :: pat) l = true → c ∈ l := by
  intro l
  induction l with
  | nil => intro c pat h; simp [containsSub, List.isEmpty] at h
  | cons d rest ih =>
    intro c pat h
    rw [containsSub, Bool.or_eq_true] at h
    rcases h with h | h
    · rw [List.isPrefixOf] at h
      simp only [Bool.and_eq_true, beq_iff_eq] at h
      simp [h.1]
    · exact List.mem_cons_of_mem d (ih c pat h)

theorem not_whitespace_of_toLower_t {c : Char} (h : c.toLower = 't') :
    c.isWhitespace = false := by
  by_contra hw
  have hw' : c.isWhitespace = true := by
    cases hb : c.isWhitespace
    · exact absurd hb hw
    · rfl
  have : c = ' ' ∨ c = '\t' ∨ c = '\r' ∨ c = '\n' := by
    simp only [Char.isWhitespace, Bool.or_eq_true, decide_eq_true_eq] at hw'
    tauto
  rcases this with h1 | h1 | h1 | h1 <;> subst h1 <;> exact absurd h (by decide)

theorem pySplit_ne_nil_of_marker {m : String} (h : isMarkerLine m = true) :
    pySplit m.toList ≠ [] := by
  rw [isMarkerLine] at h
  have hmk : markerChars = 't' :: "emporary password".toList := by decide
  rw [hmk] at h
  have ht : 't' ∈ lowerChars m := mem_of_containsSub _ _ _ h
  rw [lowerChars] at ht
  obtain ⟨c, hc, hct⟩ := List.mem_map.mp ht
  exact pySplitAux_ne_nil_of_mem m.toList c hc (not_whitespace_of_toLower_t hct) []

theorem extractScan_eq_find? :
    ∀ ls : List String,
      extractScan ls =
        match ls.find? (fun l => isMarkerLine l) with
        | some m => (lastTokenE m).map (fun t => some t)
        | none => .ok none := by
  intro ls
  induction ls with
  | nil => rfl
  | cons l rest ih =>
    by_cases h : isMarkerLine l = true
    · rw [extractScan, if_pos h, List.find?_cons_of_pos rest h]
    · rw [extractScan, if_neg h, List.find?_cons_of_neg rest h, ih]

theorem getLast?_cons_eq_or {α : Type} (x : α) (l : List α) :
    (x :: l).getLast? = (l.getLast?).or (some x) := by
  cases l with
  | nil => rfl
  | cons y t =>
    rw [List.getLast?_cons_cons]
    cases h : (y :: t).getLast? with
    | none =>
      rw [List.getLast?_eq_none_iff] at h
      simp at h
    | some a => rfl

theorem find?_reverse_eq_getLast?_filter {α : Type} (p : α → Bool) :
    ∀ l : List α, l.reverse.find? p = (l.filter p).getLast? := by
  intro l
  induction l with
  | nil => rfl
  | cons x rest ih =>
    rw [List.reverse_cons, List.find?_append, ih, List.filter_cons]
    by_cases hx : p x = true
    · rw [if_pos hx, getLast?_cons_eq_or]
      have : List.find? p [x] = some x := List.find?_cons_of_pos [] hx
      rw [this]
    · rw [if_neg hx]
      have : List.find? p [x] = none := by
        rw [List.find?_cons_of_neg [] hx]; rfl
      rw [this]
      cases (rest.filter p).getLast? <;> rfl

theorem mem_of_getLast?_eq {α : Type} {l : List α} {a : α}
    (h : l.getLast? = some a) : a ∈ l := by
  induction l with
  | nil => simp at h
  | cons x t ih =>
    cases t with
    | nil =>
      simp only [List.getLast?_singleton, Option.some.injEq] at h
      simp [h]
    | cons y s =>
      rw [List.getLast?_cons_cons] at h
      exact List.mem_cons_of_mem _ (ih h)


/-- C7: for every initialization log, the temporary-credential extractor
returns the last whitespace-separated token of the last line containing the
marker phrase `temporary password` (case-insensitive), so with two marker
lines the token of the later line wins; it returns `None` when the log file
is absent or no line contains the marker, and it never hits the
`IndexError` path on a marker line. -/
theorem c7_extract_last_marker_token :
    extractTempPassword none = .ok none ∧
    ∀ lines : List String,
      extractTempPassword (some lines) =
        .ok (((lines.filter (fun l => isMarkerLine l)).getLast?).map
          (fun m => ((pySplit m.toList).getLast?.getD []).asString)) := by
  refine ⟨rfl, ?_⟩
  intro lines
  show extractScan lines.reverse = _
  rw [extractScan_eq_find?, find?_reverse_eq_getLast?_filter]
  cases h : (lines.filter (fun l => isMarkerLine l)).getLast? with
  | none => rfl
  | some m =>
    have hm : m ∈ lines.filter (fun l => isMarkerLine l) := mem_of_getLast?_eq h
    have hmark : isMarkerLine m = true := (List.mem_filter.mp hm).2
    have hsplit := pySplit_ne_nil_of_marker hmark
    cases hg : (pySplit m.toList).getLast? with
    | none =>
      rw [List.getLast?_eq_none_iff] at hg
      exact absurd hg hsplit
    | some t =>
      show Except.map (fun t => some t) (lastTokenE m) = _
      unfold lastTokenE
      rw [hg]
      have hg2 : (pySplit m.data).getLast? = some t := hg
      simp [hg2, Except.map]


/-- Concrete check: with two marker lines the extractor returns the token of
the later line. -/
theorem extractTempPassword_two_markers :
    extractTempPassword (some
      ["2024-01-01 [Note] A temporary password is generated for root@localhost: first1",
       "other line",
       "2024-01-02 [Note] A temporary password is generated for root@localhost: second2"]) =
    .ok (some "second2") := by decide

/-! ### Support lemmas: the configuration-parameter model -/

theorem lookupKV_setKV (kvs : SectionKVs) (k v : String) :
    lookupKV (setKV kvs k v) k = some v := by
  induction kvs with
  | nil => rw [setKV, lookupKV]; simp
  | cons e rest ih =>
    obtain ⟨k', v'⟩ := e
    by_cases h : k' = k
    · subst h; simp [setKV, lookupKV]
    · simp [setKV, lookupKV, h, ih]

theorem configGet_setSection (cfg : IniConfig) (sec k v : String) :
    configGet (setSection cfg sec k v) sec k = some v := by
  induction cfg with
  | nil => simp [setSection, configGet, getSectionD, lookupKV]
  | cons e rest ih =>
    obtain ⟨s, kvs⟩ := e
    by_cases h : s = sec
    · subst h; simp [setSection, configGet, getSectionD, lookupKV_setKV]
    · simpa [setSection, configGet, getSectionD, h] using ih


/-- C10 counterexample: `"my_custom_setting"` is outside all three
validation sets and `validate_parameter` accepts the value `"50%"`, yet
`set_parameter` raises (the `ValueError` from configparser's
`BasicInterpolation.before_set` on the stray `%`) and writes nothing — the
claim that any value string is accepted and written verbatim for unknown
parameter names is false. -/
theorem c10_counterexample :
    ("my_custom_setting" ∉ NUMERIC_PARAMS ∧ "my_custom_setting" ∉ SIZE_PARAMS ∧
      "my_custom_setting" ∉ BOOLEAN_PARAMS) ∧
    validateParameter "my_custom_setting" "50%" = .ok () ∧
    interpolationSyntaxOk "50%" = false ∧
    setParameter [("mysqld", [("port", "3306")])] "my_custom_setting" "50%" =
      .error ("invalid interpolation syntax in " ++ "50%") := by
  decide

/-- C10 (amended): for every parameter name outside the three known
validation sets (numeric, size, boolean), `validate_parameter` itself never
raises for any value; but the `parser["mysqld"][parameter] = value`
assignment additionally runs configparser's interpolation-syntax check on
every value — a value whose `%` characters are all part of `%%` escapes or
`%(...)s` references is accepted and written verbatim into the `[mysqld]`
section, while a value with a stray `%` raises `ValueError` and nothing is
written. -/
theorem c10_unknown_parameter_interpolation (cfg : IniConfig)
    (name value : String)
    (h1 : name ∉ NUMERIC_PARAMS) (h2 : name ∉ SIZE_PARAMS)
    (h3 : name ∉ BOOLEAN_PARAMS) :
    validateParameter name value = .ok () ∧
    (interpolationSyntaxOk value = true →
      ∃ cfg', setParameter cfg name value = .ok cfg' ∧
        configGet cfg' "mysqld" name = some value) ∧
    (interpolationSyntaxOk value = false →
      setParameter cfg name value =
        .error ("invalid interpolation syntax in " ++ value)) := by
  have hv : validateParameter name value = .ok () := by
    simp [validateParameter, h1, h2, h3]
  refine ⟨hv, ?_, ?_⟩
  · intro hi
    exact ⟨setSection (ensureMysqld cfg) "mysqld" name value,
      by simp [setParameter, hv, hi], configGet_setSection _ _ _ _⟩
  · intro hi
    simp [setParameter, hv, hi]
    rfl


/-- Witness for C10 (amended) at a concrete unknown parameter, exercising
both the accepted and the rejected value side. -/
theorem c10_unknown_parameter_interpolation_witness :
    ("my_custom_setting" ∉ NUMERIC_PARAMS ∧ "my_custom_setting" ∉ SIZE_PARAMS ∧
      "my_custom_setting" ∉ BOOLEAN_PARAMS) ∧
    (validateParameter "my_custom_setting" "whatever!" = .ok () ∧
     (interpolationSyntaxOk "whatever!" = true →
       ∃ cfg', setParameter [("mysqld", [("port", "3306")])] "my_custom_setting"
           "whatever!" = .ok cfg' ∧
         configGet cfg' "mysqld" "my_custom_setting" = some "whatever!") ∧
     (interpolationSyntaxOk "whatever!" = false →
       setParameter [("mysqld", [("port", "3306")])] "my_custom_setting"
           "whatever!" =
         .error ("invalid interpolation syntax in " ++ "whatever!"))) :=
  ⟨⟨by decide, by decide, by decide⟩,
   c10_unknown_parameter_interpolation [("mysqld", [("port", "3306")])]
     "my_custom_setting" "whatever!" (by decide) (by decide) (by decide)⟩

/-! ### Sample data for witnesses and counterexamples -/

/-! ### Support lemmas: `create_instance` case analysis -/

theorem bootstrapModel_ne_invalidName (inst : InstanceConfig)
    (temp : Option String) (env : CreateEnv) :
    (bootstrapModel inst temp env).2 ≠ .error .invalidName := by
  unfold bootstrapModel
  repeat' split
  all_goals simp

theorem bootstrapModel_ne_portUnavailable (inst : InstanceConfig)
    (temp : Option String) (env : CreateEnv) :
    (bootstrapModel inst temp env).2 ≠ .error .portUnavailable := by
  unfold bootstrapModel
  repeat' split
  all_goals simp


/-- C8: for every name already present in the registry, `create_instance`
fails with `AlreadyExists` before any mutation: no effects are performed and
the registry (hence the existing record and its `lastModifiedAt`) is
unchanged. -/
theorem c8_duplicate_create_rejected (reg : List InstanceConfig) (env : CreateEnv) (name : String)
    (portArg : Option Nat) (ver : Option String)
    (h : registryExists reg name = true) :
    createInstance reg env name portArg ver =
      { result := .error .alreadyExists, effects := [], registry := reg } := by
  simp [createInstance, h]


/-- Witness for C8 at a concrete registry. -/
theorem c8_duplicate_create_rejected_witness :
    registryExists [sampleRecord] "db1" = true ∧
    createInstance [sampleRecord] quietEnv "db1" (some 3307) none =
      { result := .error .alreadyExists, effects := [],
        registry := [sampleRecord] } :=
  ⟨by decide, c8_duplicate_create_rejected [sampleRecord] quietEnv "db1" (some 3307) none (by decide)⟩


/-- C6 counterexample: a name containing a path separator is not rejected —
creation does not fail with `InvalidName`, directories are created for it,
and the separator is interpolated verbatim into the planned paths. -/
theorem c6_counterexample :
    (createInstance [] quietEnv "evil/name" (some 3307) none).result ≠
      .error .invalidName ∧
    Eff.ensureDirs "evil/name" ∈ (createInstance [] quietEnv "evil/name" (some 3307) none).effects ∧
    (generatePaths "evil/name").datadir = "/var/lib/mysql-instances/evil/name" := by
  refine ⟨by decide, by decide, rfl⟩


/-- C6 (amended): the path-planning step performs no name validation — the
name (path separators included) is interpolated verbatim into the planned
paths, and `create_instance` never fails with an `InvalidName` error for any
name. -/
theorem c6_no_name_validation (reg : List InstanceConfig) (env : CreateEnv)
    (name : String) (portArg : Option Nat) (ver : Option String) :
    (createInstance reg env name portArg ver).result ≠ .error .invalidName := by
  intro hbad
  simp only [createInstance] at hbad
  repeat' split at hbad
  all_goals simp_all [bootstrapModel_ne_invalidName]


/-- C3 counterexample: port 3306 is claimed by an existing registry record
and nothing is listening on it, yet creation with explicit port 3306 does
not fail with `PortUnavailable`. -/
theorem c3_counterexample :
    3306 ∈ [sampleRecord].map (fun i => i.port) ∧
    quietEnv.listening 3306 = false ∧
    (createInstance [sampleRecord] quietEnv "db2" (some 3306) none).result ≠
      .error .portUnavailable := by
  refine ⟨by decide, rfl, by decide⟩


/-- C3 (amended): for an explicitly supplied port, creation fails with
`PortUnavailable` (before any mutation: no effects, registry unchanged)
exactly when the port is already listening on the loopback interface; the
set of ports claimed by existing records is not consulted for an explicit
port (it is only used by the auto-selection). -/
theorem c3_explicit_port_check (reg : List InstanceConfig) (env : CreateEnv)
    (name : String) (p : Nat) (ver : Option String)
    (hex : registryExists reg name = false) :
    ((createInstance reg env name (some p) ver).result = .error .portUnavailable ↔
      env.listening p = true) ∧
    (env.listening p = true →
      createInstance reg env name (some p) ver =
        { result := .error .portUnavailable, effects := [], registry := reg }) := by
  constructor
  · constructor
    · intro hbad
      by_contra hnl
      have hnl' : env.listening p = false := by
        cases h : env.listening p
        · rfl
        · exact absurd h hnl
      simp only [createInstance] at hbad
      repeat' split at hbad
      all_goals simp_all [bootstrapModel_ne_portUnavailable]
    · intro hl
      simp [createInstance, hex, hl]
  · intro hl
    simp [createInstance, hex, hl]

/-- Witness for C3 (amended) at a concrete input. -/
theorem c3_explicit_port_check_witness :
    registryExists [] "db1" = false ∧
    ((((createInstance [] quietEnv "db1" (some 4000) none).result =
        .error .portUnavailable) ↔ quietEnv.listening 4000 = true) ∧
     (quietEnv.listening 4000 = true →
       createInstance [] quietEnv "db1" (some 4000) none =
         { result := .error .portUnavailable, effects := [], registry := [] })) :=
  ⟨by decide, c3_explicit_port_check [] quietEnv "db1" 4000 none (by decide)⟩

/-! ### Support lemmas: `remove_instance` -/

theorem string_append_right_ne {a b : String} (h : a ≠ b) (n : String) :
    a ++ n ≠ b ++ n := by
  intro he
  apply h
  have hd : a.data ++ n.data = b.data ++ n.data := by
    have := congrArg String.data he
    simpa [String.data_append] using this
  exact congrArg String.mk (List.append_cancel_right hd)

theorem parentPath_append_mycnf (s : String) : parentPath (s ++ "/my.cnf") = s := by
  unfold parentPath
  simp only [String.toList, String.data_append]
  rw [List.reverse_append]
  have h2 : "/my.cnf".data.reverse = ['f', 'n', 'c', '.', 'y', 'm', '/'] := by decide
  rw [h2]
  simp [List.dropWhile]
  cases s
  rfl

theorem findRecord_eq_none_of_countP_zero (reg : List InstanceConfig)
    (name : String) (h : reg.countP (fun i => i.name = name) = 0) :
    findRecord reg name = none := by
  induction reg with
  | nil => rfl
  | cons i rest ih =>
    rw [List.countP_cons] at h
    by_cases hi : i.name = name
    · simp [hi] at h
    · rw [findRecord, if_neg hi]
      exact ih (by omega)

theorem findRecord_regDelete_eq_none (reg : List InstanceConfig) (name : String)
    (huniq : reg.countP (fun i => i.name = name) ≤ 1) :
    findRecord (regDelete reg name) name = none := by
  induction reg with
  | nil => rfl
  | cons i rest ih =>
    rw [List.countP_cons] at huniq
    by_cases hi : i.name = name
    · rw [regDelete, if_pos hi]
      refine findRecord_eq_none_of_countP_zero rest name ?_
      rw [if_pos (by simp [hi])] at huniq
      omega
    · rw [regDelete, if_neg hi, findRecord, if_neg hi]
      refine ih ?_
      rw [if_neg (by simp [hi])] at huniq
      omega


/-- C5 counterexample: `remove_instance` with `keep_data = true` still
deletes the runtime directory (`/var/run/mysql-db1`), contradicting the
claim that the runtime directory is deleted only when `keepData` is
false. -/
theorem c5_counterexample :
    sampleRecord.runtime_dir = "/var/run/mysql-db1" ∧
    removeInstance [sampleRecord] allExistEnv "db1" true =
      .ok ([Eff.unitStop "mysqld-db1.service", Eff.unitDisable "mysqld-db1.service",
            Eff.unlinkPath "/etc/systemd/system/mysqld-db1.service", Eff.daemonReload,
            Eff.rmtree "/var/run/mysql-db1", Eff.rmtree "/etc/mysql-instances/db1",
            Eff.deleteRecord "db1"], []) := by decide


/-- C5 (amended): `remove_instance(name, keepData = true)` deletes the
registry record, the unit file and the config directory, and does not delete
the data, log or backup directories — but it does delete the runtime
directory (when present); only data, log and backup are protected by
`keepData`. -/
theorem c5_remove_keepdata (reg : List InstanceConfig) (env : RemoveEnv)
    (name : String) (port : Nat) (ver : Option String) (now pw : String)
    (b : Bool)
    (hfind : findRecord reg name =
      some { buildRecord name port ver now (generatePaths name) pw with
              root_password_set := b })
    (huniq : reg.countP (fun i => i.name = name) ≤ 1) :
    ∃ effs, removeInstance reg env name true = .ok (effs, regDelete reg name) ∧
      findRecord (regDelete reg name) name = none ∧
      Eff.deleteRecord name ∈ effs ∧
      Eff.rmtree (generatePaths name).datadir ∉ effs ∧
      Eff.rmtree (generatePaths name).logDir ∉ effs ∧
      Eff.rmtree (generatePaths name).backupDir ∉ effs ∧
      (env.runtimeExists = true → Eff.rmtree (generatePaths name).runtimeDir ∈ effs) ∧
      (env.confExists = true → Eff.rmtree (generatePaths name).confDir ∈ effs) := by
  have hconf : parentPath ("/etc/mysql-instances/" ++ name ++ "/my.cnf") =
      "/etc/mysql-instances/" ++ name := parentPath_append_mycnf _
  have hd1 : "/var/lib/mysql-instances/" ++ name ≠ "/var/run/mysql-" ++ name :=
    string_append_right_ne (by decide) name
  have hd2 : "/var/lib/mysql-instances/" ++ name ≠ "/etc/mysql-instances/" ++ name :=
    string_append_right_ne (by decide) name
  have hl1 : "/var/log/mysql-" ++ name ≠ "/var/run/mysql-" ++ name :=
    string_append_right_ne (by decide) name
  have hl2 : "/var/log/mysql-" ++ name ≠ "/etc/mysql-instances/" ++ name :=
    string_append_right_ne (by decide) name
  have hb1 : "/var/backups/mysql/" ++ name ≠ "/var/run/mysql-" ++ name :=
    string_append_right_ne (by decide) name
  have hb2 : "/var/backups/mysql/" ++ name ≠ "/etc/mysql-instances/" ++ name :=
    string_append_right_ne (by decide) name
  simp only [removeInstance, hfind]
  refine ⟨_, rfl, findRecord_regDelete_eq_none reg name huniq, ?_, ?_, ?_, ?_, ?_, ?_⟩
  all_goals
    obtain ⟨u, dex, lex, rex, cex, bex⟩ := env
    simp only [buildRecord, generatePaths] at hconf hd1 hd2 hl1 hl2 hb1 hb2 ⊢
    cases u <;> cases rex <;> cases cex <;>
      simp_all [generatePaths, buildRecord, hconf]

/-- Witness for C5 (amended) at a concrete registry. -/
theorem c5_remove_keepdata_witness :
    (findRecord [sampleRecord] "db1" =
      some { buildRecord "db1" 3306 none "2024-01-01T00:00:00"
              (generatePaths "db1")
              "/etc/mysql-instances/db1/root-password.txt" with
              root_password_set := false } ∧
     [sampleRecord].countP (fun i => i.name = "db1") ≤ 1) ∧
    (∃ effs, removeInstance [sampleRecord] allExistEnv "db1" true =
        .ok (effs, regDelete [sampleRecord] "db1") ∧
      findRecord (regDelete [sampleRecord] "db1") "db1" = none ∧
      Eff.deleteRecord "db1" ∈ effs ∧
      Eff.rmtree (generatePaths "db1").datadir ∉ effs ∧
      Eff.rmtree (generatePaths "db1").logDir ∉ effs ∧
      Eff.rmtree (generatePaths "db1").backupDir ∉ effs ∧
      (allExistEnv.runtimeExists = true →
        Eff.rmtree (generatePaths "db1").runtimeDir ∈ effs) ∧
      (allExistEnv.confExists = true →
        Eff.rmtree (generatePaths "db1").confDir ∈ effs)) :=
  ⟨⟨by decide, by decide⟩,
   c5_remove_keepdata [sampleRecord] allExistEnv "db1" 3306 none
     "2024-01-01T00:00:00" "/etc/mysql-instances/db1/root-password.txt" false
     (by decide) (by decide)⟩

/-- C2 counterexample: the temporary credential is extracted, the server
starts, the socket appears, but the credential-change command fails — the
graceful shutdown is issued, yet the error propagates out of
`create_instance` and the instance record is NOT persisted (the registry
stays empty and no save effect is performed), contradicting the claim that
the record is still saved with `credentialApplied = false`. -/
theorem c2_counterexample :
    extractTempPassword alterFailEnv.errorLogLines = .ok (some "s3cret!") ∧
    (createInstance [] alterFailEnv "db1" (some 3306) none).result =
      .error .alterFailed ∧
    (createInstance [] alterFailEnv "db1" (some 3306) none).registry = [] ∧
    Eff.shutdownCmd "/var/run/mysql-db1/mysqld.sock" ∈
      (createInstance [] alterFailEnv "db1" (some 3306) none).effects ∧
    (createInstance [] alterFailEnv "db1" (some 3306) none).effects.all
      (fun e => !e.isSaveRecord) = true := by decide


/-- C2 (amended): once the daemonized start succeeds, the graceful shutdown
using the new credential is always issued (the `finally:` block), and the
record is persisted with `credentialApplied` true exactly on a successful
credential change and persisted with `credentialApplied` false when the
temporary credential could not be extracted; but when the startup wait or
the credential-change command fails, the exception propagates and the record
is NOT persisted (registry unchanged, no save effect), the shutdown still
having been issued. -/
theorem c2_bootstrap_persistence (reg : List InstanceConfig) (env : CreateEnv)
    (name : String) (p : Nat) (ver : Option String) (tp : String)
    (hex : registryExists reg name = false)
    (hport : env.listening p = false)
    (hinit : env.datadirNonempty = true ∨ env.initOk = true) :
    (extractTempPassword env.errorLogLines = .ok (some tp) → env.startOk = true →
      Eff.shutdownCmd (generatePaths name).socketPath ∈
        (createInstance reg env name (some p) ver).effects) ∧
    (extractTempPassword env.errorLogLines = .ok (some tp) → env.startOk = true →
     env.socketAppears = true → env.alterOk = true →
      ∃ r, (createInstance reg env name (some p) ver).result = .ok r ∧
        r.root_password_set = true ∧
        (createInstance reg env name (some p) ver).registry = regSave reg r) ∧
    (extractTempPassword env.errorLogLines = .ok none →
      ∃ r, (createInstance reg env name (some p) ver).result = .ok r ∧
        r.root_password_set = false ∧
        (createInstance reg env name (some p) ver).registry = regSave reg r) ∧
    (extractTempPassword env.errorLogLines = .ok (some tp) → env.startOk = true →
     env.socketAppears = true → env.alterOk = false →
      (createInstance reg env name (some p) ver).result = .error .alterFailed ∧
      (createInstance reg env name (some p) ver).registry = reg ∧
      (createInstance reg env name (some p) ver).effects.all
        (fun e => !e.isSaveRecord) = true ∧
      Eff.shutdownCmd (generatePaths name).socketPath ∈
        (createInstance reg env name (some p) ver).effects) ∧
    (extractTempPassword env.errorLogLines = .ok (some tp) → env.startOk = true →
     env.socketAppears = false →
      (createInstance reg env name (some p) ver).result = .error .startupTimeout ∧
      (createInstance reg env name (some p) ver).registry = reg ∧
      Eff.shutdownCmd (generatePaths name).socketPath ∈
        (createInstance reg env name (some p) ver).effects) := by
  have hni : ¬(env.datadirNonempty = false ∧ env.initOk = false) := by
    rcases hinit with h | h <;> simp [h]
  refine ⟨?_, ?_, ?_, ?_, ?_⟩
  · intro hE hS
    by_cases hA : env.socketAppears = true
    · by_cases hO : env.alterOk = true
      · simp [createInstance, hex, hport, hni, hE, bootstrapModel, hS, hA, hO,
              buildRecord]
      · simp [createInstance, hex, hport, hni, hE, bootstrapModel, hS, hA, hO,
              buildRecord]
    · simp [createInstance, hex, hport, hni, hE, bootstrapModel, hS, hA,
            buildRecord]
  · intro hE hS hA hO
    refine ⟨{ buildRecord name p ver env.now (generatePaths name)
        ((generatePaths name).confDir ++ "/root-password.txt") with
        root_password_set := true }, ?_, rfl, ?_⟩ <;>
      simp [createInstance, hex, hport, hni, hE, bootstrapModel, hS, hA, hO,
            buildRecord]
  · intro hE
    refine ⟨{ buildRecord name p ver env.now (generatePaths name)
        ((generatePaths name).confDir ++ "/root-password.txt") with
        root_password_set := false }, ?_, rfl, ?_⟩ <;>
      simp [createInstance, hex, hport, hni, hE, bootstrapModel, buildRecord]
  · intro hE hS hA hO
    refine ⟨?_, ?_, ?_, ?_⟩ <;>
      simp [createInstance, hex, hport, hni, hE, bootstrapModel, hS, hA, hO,
            buildRecord, Eff.isSaveRecord]
  · intro hE hS hA
    refine ⟨?_, ?_, ?_⟩ <;>
      simp [createInstance, hex, hport, hni, hE, bootstrapModel, hS, hA,
            buildRecord]

/-- Witness for C2 (amended) at a concrete environment. -/
theorem c2_bootstrap_persistence_witness :
    (registryExists [] "db1" = false ∧ alterFailEnv.listening 3306 = false ∧
      (alterFailEnv.datadirNonempty = true ∨ alterFailEnv.initOk = true)) ∧
    ((extractTempPassword alterFailEnv.errorLogLines = .ok (some "s3cret!") →
      alterFailEnv.startOk = true →
      Eff.shutdownCmd (generatePaths "db1").socketPath ∈
        (createInstance [] alterFailEnv "db1" (some 3306) none).effects) ∧
    (extractTempPassword alterFailEnv.errorLogLines = .ok (some "s3cret!") →
     alterFailEnv.startOk = true →
     alterFailEnv.socketAppears = true → alterFailEnv.alterOk = true →
      ∃ r, (createInstance [] alterFailEnv "db1" (some 3306) none).result = .ok r ∧
        r.root_password_set = true ∧
        (createInstance [] alterFailEnv "db1" (some 3306) none).registry =
          regSave [] r) ∧
    (extractTempPassword alterFailEnv.errorLogLines = .ok none →
      ∃ r, (createInstance [] alterFailEnv "db1" (some 3306) none).result = .ok r ∧
        r.root_password_set = false ∧
        (createInstance [] alterFailEnv "db1" (some 3306) none).registry =
          regSave [] r) ∧
    (extractTempPassword alterFailEnv.errorLogLines = .ok (some "s3cret!") →
     alterFailEnv.startOk = true →
     alterFailEnv.socketAppears = true → alterFailEnv.alterOk = false →
      (createInstance [] alterFailEnv "db1" (some 3306) none).result =
        .error .alterFailed ∧
      (createInstance [] alterFailEnv "db1" (some 3306) none).registry = [] ∧
      (createInstance [] alterFailEnv "db1" (some 3306) none).effects.all
        (fun e => !e.isSaveRecord) = true ∧
      Eff.shutdownCmd (generatePaths "db1").socketPath ∈
        (createInstance [] alterFailEnv "db1" (some 3306) none).effects) ∧
    (extractTempPassword alterFailEnv.errorLogLines = .ok (some "s3cret!") →
     alterFailEnv.startOk = true →
     alterFailEnv.socketAppears = false →
      (createInstance [] alterFailEnv "db1" (some 3306) none).result =
        .error .startupTimeout ∧
      (createInstance [] alterFailEnv "db1" (some 3306) none).registry = [] ∧
      Eff.shutdownCmd (generatePaths "db1").socketPath ∈
        (createInstance [] alterFailEnv "db1" (some 3306) none).effects)) :=
  ⟨⟨by decide, by decide, Or.inr (by decide)⟩,
   c2_bootstrap_persistence [] alterFailEnv "db1" 3306 none "s3cret!"
     (by decide) (by decide) (Or.inr (by decide))⟩

/-! ### Support lemmas: registry save -/

theorem nil_mem_inits (l : List Char) : [] ∈ l.inits := by
  cases l <;> simp [List.inits]

theorem yamlDump_to_dict_ne_empty (i : InstanceConfig) :
    yamlDump i.to_dict ≠ "" := by
  intro h
  have hd := congrArg String.data h
  simp [yamlDump, InstanceConfig.to_dict, String.data_append] at hd


/-- C4 counterexample: for a concrete record, the save is not atomic — a
crash during the direct write to the final record path can leave the file
existing with partial (here: empty) content that is neither the previous
content nor the complete serialized record. -/
theorem c4_counterexample :
    ¬ SaveAtomic [] (registrySave "/etc/mysqlm/instances" tinyRecord "t1").2
      (recordPath "/etc/mysqlm/instances" tinyRecord.name)
      (yamlDump (registrySave "/etc/mysqlm/instances" tinyRecord "t1").1.to_dict) := by
  unfold SaveAtomic
  decide


/-- C4 (amended): `Registry.save` sets `lastModifiedAt` on every save and
restricts the record file to mode `0o640` (owner/group only, no world
access), but it writes directly to the final record path with no
temp-then-rename step, so a crash mid-write can leave a partially written
record on disk. -/
theorem c4_save_not_atomic (dir : String) (inst : InstanceConfig) (now : String) :
    (registrySave dir inst now).1.last_modified = now ∧
    FsOp.chmodFile (recordPath dir inst.name) 0o640 ∈ (registrySave dir inst now).2 ∧
    FsOp.writeFile (recordPath dir inst.name)
      (yamlDump (registrySave dir inst now).1.to_dict) ∈ (registrySave dir inst now).2 ∧
    (∀ op ∈ (registrySave dir inst now).2, op.isRename = false) ∧
    (∃ fs' ∈ crashStates [] (registrySave dir inst now).2,
      fsGet fs' (recordPath dir inst.name) = some "" ∧
      yamlDump (registrySave dir inst now).1.to_dict ≠ "") := by
  refine ⟨rfl, by simp [registrySave], by simp [registrySave], ?_, ?_⟩
  · intro op hop
    simp [registrySave] at hop
    rcases hop with h | h <;> subst h <;> rfl
  · refine ⟨fsSet [] (recordPath dir inst.name) "", ?_, ?_,
      yamlDump_to_dict_ne_empty _⟩
    · show fsSet [] (recordPath dir inst.name) "" ∈ crashStates [] _
      rw [registrySave]
      simp only [crashStates]
      refine List.mem_append.mpr (Or.inl (List.mem_cons_of_mem _ ?_))
      refine List.mem_map.mpr ⟨"", ?_, rfl⟩
      exact List.mem_map.mpr ⟨[], nil_mem_inits _, rfl⟩
    · simp [fsSet, fsGet]


/-- C1 counterexample: the secret `hunter2` is in the mask list and appears
in the command argument list; on non-zero exit with `check=True` the raised
`CommandError` message embeds the unmasked command line, so the surfaced
error message contains the secret verbatim. -/
theorem c1_counterexample :
    (runCommandSurface ["mysqladmin".toList, "-phunter2".toList, "shutdown".toList]
        1 [] [] ["hunter2".toList] true).raisedMsg =
      some (commandErrorMsg
        ["mysqladmin".toList, "-phunter2".toList, "shutdown".toList] 1 [] []) ∧
    Occurs "hunter2".toList
      (commandErrorMsg
        ["mysqladmin".toList, "-phunter2".toList, "shutdown".toList] 1 [] []) := by
  constructor
  · decide
  · exact ⟨"Command \x27mysqladmin -p".toList,
      " shutdown\x27 failed with exit code 1. Stdout:  Stderr: ".toList, by decide⟩


/-- C1 (amended): masking is applied to the command display and to the
captured output before they are debug-logged — for every non-empty secret in
the mask list that contains no `*` character, neither the logged command
display nor the logged captured output contains the secret verbatim; the
message of the `CommandError` raised on non-zero exit, however, is built
from the unmasked command and output (see the counterexample). -/
theorem c1_masking_scope (cmd : List (List Char)) (rc : Int) (out err : List Char)
    (maskSecrets : List (List Char)) (check : Bool) (s : List Char)
    (hmem : s ∈ maskSecrets) (hs : s ≠ []) (hstar : '*' ∉ s) :
    ¬ Occurs s (runCommandSurface cmd rc out err maskSecrets check).displayLogged ∧
    ¬ Occurs s (runCommandSurface cmd rc out err maskSecrets check).finishOutLogged ∧
    ¬ Occurs s (runCommandSurface cmd rc out err maskSecrets check).finishErrLogged := by
  unfold runCommandSurface
  split
  · refine ⟨not_occurs_secret_maskText hmem hs hstar _, ?_, ?_⟩ <;>
      exact fun h => hs (occurs_nil_elim h)
  · refine ⟨not_occurs_secret_maskText hmem hs hstar _, ?_, ?_⟩
    · show ¬ Occurs s (if out = [] then [] else maskText maskSecrets (pyStrip out))
      by_cases ho : out = []
      · rw [if_pos ho]; exact fun h => hs (occurs_nil_elim h)
      · rw [if_neg ho]; exact not_occurs_secret_maskText hmem hs hstar _
    · show ¬ Occurs s (if err = [] then [] else maskText maskSecrets (pyStrip err))
      by_cases he : err = []
      · rw [if_pos he]; exact fun h => hs (occurs_nil_elim h)
      · rw [if_neg he]; exact not_occurs_secret_maskText hmem hs hstar _


/-- Witness for C1 (amended) at a concrete command and secret. -/
theorem c1_masking_scope_witness :
    ("hunter2".toList ∈ ["hunter2".toList] ∧ "hunter2".toList ≠ ([] : List Char) ∧
      '*' ∉ "hunter2".toList) ∧
    (¬ Occurs "hunter2".toList
        (runCommandSurface ["mysql".toList, "-phunter2".toList] 0
          "ok hunter2 done".toList [] ["hunter2".toList] true).displayLogged ∧
     ¬ Occurs "hunter2".toList
        (runCommandSurface ["mysql".toList, "-phunter2".toList] 0
          "ok hunter2 done".toList [] ["hunter2".toList] true).finishOutLogged ∧
     ¬ Occurs "hunter2".toList
        (runCommandSurface ["mysql".toList, "-phunter2".toList] 0
          "ok hunter2 done".toList [] ["hunter2".toList] true).finishErrLogged) :=
  ⟨⟨by decide, by decide, by decide⟩,
   c1_masking_scope ["mysql".toList, "-phunter2".toList] 0 "ok hunter2 done".toList
     [] ["hunter2".toList] true "hunter2".toList (by decide) (by decide) (by decide)⟩


/-- C9: for every `InstanceConfig` record, deserializing its serialization
is the identity: `InstanceConfig.from_dict(record.to_dict())` returns the
original record, all fields preserved. -/
theorem c9_roundtrip (i : InstanceConfig) (now : String) :
    InstanceConfig.from_dict now i.to_dict = .ok i := by
  obtain ⟨nm, po, so, dd, cp, ld, el, sl, pf, rd, bd, mv, ca, lm, su, rpp, rps⟩ := i
  cases mv <;> rfl

end Mysqlm
